import Mathlib

/-!
Shallow embedding of the dual-source video-retrieval pipeline of the
`AI_edu_bot` backend (the F5 feature: `src/server/F5/`), together with
theorems checking the natural-language specification against it.

Conventions of the embedding:
* similarity-ordered document lists stand for the result of
  `db.similarity_search(query, k*2)`; the vector index itself is a black box
  (the spec treats the embedding/vector-index library as an external
  collaborator), so every statement quantifies over the candidate list the
  index returned;
* Python machine floats that the code only compares or floors are modelled
  as exact rationals (`ℚ`); the quota computation `int(k * 0.7)` is modelled
  as exact `7 * k / 10` in `ℕ` (the two agree at every `k` the repository
  uses: the default `k = 12`, the call site's `k = 15`, and the spec's
  `k = 10`);
* SQLite tables are modelled as lists of rows held in insertion order;
  `ts DATETIME DEFAULT CURRENT_TIMESTAMP` is monotone in insertion order, so
  `ORDER BY ts ASC` is the identity on that list and `LIMIT n` is `take n`;
* fallible or effectful library calls (the LLM backend, the OCR backend)
  are opaque function parameters, as the spec declares them out of scope.
-/

/-! ## Documents of the vector index (`F5_ingest.py`, `F5_vector.py`)

A `Doc` is the part of a `langchain` `Document` the retrieval logic reads:
its `page_content` and the `source` and `start` metadata written by
`ingest_video` (`F5_ingest.py` lines 53-112): `source` is `"speech"` for
transcript snippets and `"visual"` for OCR snippets, `start` is the start
time in seconds. -/
structure Doc where
  source : String
  content : String
  start : ℚ
deriving DecidableEq, Repr

/-- The SPEECH bucket: `[d for d in all_docs if d.metadata.get("source") == "speech"]`
(`F5_vector.py` line 43). -/
def transcriptDocs (all_docs : List Doc) : List Doc :=
  all_docs.filter (fun d => d.source == "speech")

/-- The VISUAL bucket: `[d for d in all_docs if d.metadata.get("source") == "visual"]`
(`F5_vector.py` line 44). -/
def ocrDocs (all_docs : List Doc) : List Doc :=
  all_docs.filter (fun d => d.source == "visual")

/-- The speech quota `transcript_count = int(k * 0.7)` (`F5_vector.py` line 47),
modelled as exact `⌊7k/10⌋`. -/
def speech_quota (k : ℕ) : ℕ :=
  7 * k / 10

/-- Embedding of `retrieve_with_priority` (`F5_vector.py` lines 34-61) from the
similarity-ordered candidate list `all_docs = db.similarity_search(query, k*2)`
onwards.  The buckets keep similarity order; the two rebalancing branches are
evaluated in the source's order and the result is always
`selected_transcript + selected_ocr`. -/
def retrieve_with_priority (all_docs : List Doc) (k : ℕ) : List Doc :=
  let transcript_docs := transcriptDocs all_docs
  let ocr_docs := ocrDocs all_docs
  let transcript_count := speech_quota k
  let ocr_count := k - transcript_count
  let selected_transcript := transcript_docs.take transcript_count
  let selected_ocr := ocr_docs.take ocr_count
  if selected_transcript.length < transcript_count ∧ ocr_docs.length > ocr_count then
    selected_transcript ++ ocr_docs.take (ocr_count + (transcript_count - selected_transcript.length))
  else if selected_ocr.length < ocr_count ∧ transcript_docs.length > transcript_count then
    transcript_docs.take (transcript_count + (ocr_count - selected_ocr.length)) ++ selected_ocr
  else
    selected_transcript ++ selected_ocr

/-! ## The ingest cache (`F5_meta_db.py`, `F5_chatnode.py` `ingest_node`)

The SQLite table `indexed_videos (user_id, chat_id, youtube_url, faiss_dir)`
with `PRIMARY KEY (user_id, chat_id, youtube_url)` is modelled as a list of
rows; the primary key keeps at most one row per key, which the model obtains
by letting `save_index` replace any row with the same key. -/
structure IndexRow where
  user_id : String
  chat_id : String
  youtube_url : String
  faiss_dir : String
deriving DecidableEq, Repr

/-- Rows of the `indexed_videos` table. -/
abbrev MetaDB := List IndexRow

/-- Row match on the table's primary key. -/
def keyMatches (user_id chat_id url : String) (r : IndexRow) : Bool :=
  r.user_id == user_id && r.chat_id == chat_id && r.youtube_url == url

/-- Embedding of `get_index` (`F5_meta_db.py` lines 21-28):
`SELECT faiss_dir FROM indexed_videos WHERE user_id=? AND chat_id=? AND youtube_url=?`. -/
def get_index (db : MetaDB) (user_id chat_id url : String) : Option String :=
  (db.find? (keyMatches user_id chat_id url)).map (fun r => r.faiss_dir)

/-- Embedding of `save_index` (`F5_meta_db.py` lines 31-37):
`INSERT OR REPLACE INTO indexed_videos VALUES (?, ?, ?, ?)` — any existing
row with the same primary key is replaced. -/
def save_index (db : MetaDB) (user_id chat_id url faiss_dir : String) : MetaDB :=
  ⟨user_id, chat_id, url, faiss_dir⟩ ::
    db.filter (fun r => !(keyMatches user_id chat_id url r))

/-- What one run of the cached-ingestion step produces: the index handle the
state gets, the cache afterwards, and how many times `ingest_video` ran. -/
structure IngestResult where
  faiss_dir : String
  db : MetaDB
  builds : ℕ
deriving DecidableEq, Repr

/-- Embedding of the cache protocol of `ingest_node` (`F5_chatnode.py` lines
170-175): look the key up; on a miss run the build step (`ingest_video`,
whose produced handle is the parameter `built_dir`) and store its handle; on
a hit return the cached handle without building.  The `video_id` extraction
and directory creation of lines 158-168 touch neither the cache nor the
handle and are omitted. -/
def ingest_node (db : MetaDB) (user_id chat_id url : String) (built_dir : String) :
    IngestResult :=
  match get_index db user_id chat_id url with
  | some faiss_dir => ⟨faiss_dir, db, 0⟩
  | none => ⟨built_dir, save_index db user_id chat_id url built_dir, 1⟩

/-! ## Timestamp extraction (`F5_chatnode.py` `extract_timestamp`, lines 179-201)

The four regular expressions are embedded as matchers over `List Char`.
Python's `re.search` returns the match at the leftmost starting position, so
`re_search` tries the matcher at every suffix in order.  In each pattern the
`\s+`/`\s*` run is followed by a digit, so greedy matching with backtracking
consumes exactly the maximal whitespace run; `\d{1,2}` tries two digits, and
on failure one.  `\d` and `\s` are modelled on their ASCII ranges (the only
ones the queries of this repository exercise). -/
def isPyDigit (c : Char) : Bool :=
  '0' ≤ c && c ≤ '9'

/-- ASCII whitespace of Python's `\s`: space, tab, newline, carriage return,
vertical tab, form feed. -/
def isPySpace (c : Char) : Bool :=
  c == ' ' || c == '\t' || c == '\n' || c == '\r' || c == '\x0b' || c == '\x0c'

/-- Numeric value of a digit character. -/
def digitVal (c : Char) : ℕ :=
  c.toNat - '0'.toNat

/-- Python's `str.strip()` with no argument: leading and trailing whitespace
removed. -/
def pyStrip (s : String) : String :=
  ⟨((s.data.dropWhile isPySpace).reverse.dropWhile isPySpace).reverse⟩

/-- Matcher for `(\d{1,2}):(\d{2})` anchored at the head of `cs`, returning
`minutes * 60 + seconds`.  Greedy `\d{1,2}` takes two digits when the colon
follows them, else backtracks to one. -/
def matchMMSS (cs : List Char) : Option ℕ :=
  match cs with
  | m1 :: m2 :: rest =>
    if isPyDigit m1 then
      if isPyDigit m2 then
        match rest with
        | ':' :: s1 :: s2 :: _ =>
          if isPyDigit s1 && isPyDigit s2 then
            some ((10 * digitVal m1 + digitVal m2) * 60 + (10 * digitVal s1 + digitVal s2))
          else none
        | _ => none
      else if m2 == ':' then
        match rest with
        | s1 :: s2 :: _ =>
          if isPyDigit s1 && isPyDigit s2 then
            some (digitVal m1 * 60 + (10 * digitVal s1 + digitVal s2))
          else none
        | _ => none
      else none
    else none
  | _ => none

/-- Matcher for `at\s+(\d{1,2}):(\d{2})` anchored at the head. -/
def matchAtTime (cs : List Char) : Option ℕ :=
  match cs with
  | 'a' :: 't' :: c :: rest =>
    if isPySpace c then matchMMSS ((c :: rest).dropWhile isPySpace) else none
  | _ => none

/-- Matcher for `on\s+(\d{1,2}):(\d{2})` anchored at the head. -/
def matchOnTime (cs : List Char) : Option ℕ :=
  match cs with
  | 'o' :: 'n' :: c :: rest =>
    if isPySpace c then matchMMSS ((c :: rest).dropWhile isPySpace) else none
  | _ => none

/-- Matcher for `@\s*(\d{1,2}):(\d{2})` anchored at the head. -/
def matchAtSignTime (cs : List Char) : Option ℕ :=
  match cs with
  | '@' :: rest => matchMMSS (rest.dropWhile isPySpace)
  | _ => none

/-- Python's `re.search`: the matcher applied at each starting position from
the left, first success wins. -/
def re_search (m : List Char → Option ℕ) : List Char → Option ℕ
  | [] => m []
  | c :: cs =>
    match m (c :: cs) with
    | some v => some v
    | none => re_search m (cs)

/-- Embedding of `extract_timestamp` (`F5_chatnode.py` lines 179-201): the
four patterns are searched in their listed priority order; the first whole
match yields `minutes * 60 + seconds`, and `none` models Python's `None`. -/
def extract_timestamp (message : String) : Option ℕ :=
  match re_search matchAtTime message.data with
  | some v => some v
  | none =>
    match re_search matchOnTime message.data with
    | some v => some v
    | none =>
      match re_search matchAtSignTime message.data with
      | some v => some v
      | none => re_search matchMMSS message.data

/-! ## Transcript window lookup (`F5_chatnode.py` `get_transcript_context`, lines 204-232)

A transcript segment is one entry of `load_transcript`'s result:
`{"text": ..., "start": ..., "end": ...}`.  `end` is a Lean keyword, so the
field is named `stop`.  Times are rationals (exact stand-ins for the floats
the transcript API returns). -/
structure Segment where
  text : String
  start : ℚ
  stop : ℚ
deriving DecidableEq, Repr

/-- The inclusion test of `get_transcript_context` (lines 219-220):
`(t_start >= timestamp - window and t_start <= timestamp + window) or
(t_end >= timestamp - window and t_end <= timestamp + window)`. -/
def segment_in_window (timestamp window : ℚ) (t : Segment) : Bool :=
  (decide (t.start ≥ timestamp - window) && decide (t.start ≤ timestamp + window))
    || (decide (t.stop ≥ timestamp - window) && decide (t.stop ≤ timestamp + window))

/-- The segments whose formatted lines `get_transcript_context` collects into
`relevant_lines` when a timestamp is given (lines 215-223): the transcript
filtered by `segment_in_window`. -/
def relevant_segments (transcript : List Segment) (timestamp window : ℚ) : List Segment :=
  transcript.filter (fun t => segment_in_window timestamp window t)

/-- The spec's words, for comparison with the code's test: the closed
interval `[start, end]` of the snippet intersects the closed window
`[timestamp - window, timestamp + window]` ("any overlap with the window
counts"). -/
def spec_overlaps (timestamp window : ℚ) (t : Segment) : Prop :=
  t.start ≤ timestamp + window ∧ timestamp - window ≤ t.stop

/-! ## Persistent chat history (`F5_history_db.py`)

The `chat_messages` table, rows in insertion order; `ts DATETIME DEFAULT
CURRENT_TIMESTAMP` is nondecreasing along that order, so `ORDER BY ts ASC`
returns the rows as listed. -/
structure ChatMessage where
  user_id : String
  chat_id : String
  role : String
  content : String
deriving DecidableEq, Repr

/-- Embedding of `load_history` (`F5_history_db.py` lines 37-48):
`SELECT role, content FROM chat_messages WHERE user_id=? AND chat_id=?
ORDER BY ts ASC LIMIT ?` — the first `limit` rows of the pair's messages in
timestamp order. -/
def load_history (table : List ChatMessage) (user_id chat_id : String) (limit : ℕ) :
    List (String × String) :=
  (((table.filter (fun m => m.user_id == user_id && m.chat_id == chat_id)).take limit).map
    (fun m => (m.role, m.content)))

/-! ## Visual extraction loop (`F5_ingest.py` `ingest_video`, lines 77-120)

The decoded frame stream is modelled as the list of the texts the OCR
backend (a black box: image → possibly empty string) recognises on each raw
frame in order; `ocr_frame(frame)` is then the list element itself.  The
loop counts raw frames with `frame_count`, samples those with
`frame_count % frame_interval == 0`, runs OCR on every sampled frame, and
decrements the budget `max_frames` (initially 120) only when the recognised
text passes the noise filter `text and len(text.strip()) > 10`. -/
def ocr_loop : List String → ℕ → ℕ → ℕ → List (ℕ × String) × ℕ
  | [], _, _, _ => ([], 0)
  | text :: rest, interval, frame_count, budget =>
    if budget = 0 then ([], 0)
    else if frame_count % interval = 0 then
      if text ≠ "" ∧ (pyStrip text).length > 10 then
        let r := ocr_loop rest interval (frame_count + 1) (budget - 1)
        ((frame_count, text) :: r.1, r.2 + 1)
      else
        let r := ocr_loop rest interval (frame_count + 1) budget
        (r.1, r.2 + 1)
    else
      ocr_loop rest interval (frame_count + 1) budget

/-- `frame_interval = int(fps * sample_every_sec)` with `sample_every_sec = 8`
(`F5_ingest.py` lines 78-79); `fps` is the positive frame rate the stream
reports, so Python's truncating `int` is the floor. -/
def frame_interval (fps : ℚ) : ℕ :=
  (⌊fps * 8⌋).toNat

/-- The visual half of `ingest_video`: kept OCR documents (as raw-frame index
and text) and the number of sampled frames the OCR backend ran on, starting
from `frame_count = 0` and `max_frames = 120` (lines 81-118). -/
def ingest_visual (frames : List String) (fps : ℚ) : List (ℕ × String) × ℕ :=
  ocr_loop frames (frame_interval fps) 0 120

/-! ## Context composition and the terminal no-context state
(`F5_chatnode.py` `rag_node`, lines 288-366)

`rag_respond` embeds `rag_node` from the point where the SPEECH context
block (`transcript_context`) and the VISUAL context block (`ocr_context`)
have been assembled.  The spec places the LLM backend and all prompt text
out of scope, so the system prompt, the user-prompt template and the LLM
call are opaque parameters; messages are (role, content) pairs.  The record
returned makes the side effects explicit: how many times the LLM backend was
invoked and which rows `save_message` appended to the history table. -/
structure Feature5Output where
  answer : String
  timestamps : List String
deriving DecidableEq, Repr

/-- One run of the composition step: the response, the number of LLM
invocations, and the `(role, content)` rows appended to the chat history. -/
structure RagEffects where
  output : Feature5Output
  llm_calls : ℕ
  saved_messages : List (String × String)
deriving DecidableEq, Repr

/-- The fixed fallback answer of the no-context branch (`F5_chatnode.py`
line 292). -/
def no_context_answer : String :=
  "I don't have information about that topic from this video. The video content I have access to doesn't seem to cover this particular question. Could you try asking about a different topic from the video, or let me know if you'd like me to explain what topics are covered?"

/-- Formatting `f"{mins}:{secs:02d}"` from a start time: minutes and
two-digit seconds of `int(start)` (`F5_chatnode.py` lines 356-359).  Start
times are nonnegative, so truncation is the floor. -/
def format_timestamp (start : ℚ) : String :=
  let s : ℕ := (⌊start⌋).toNat
  toString (s / 60) ++ ":" ++ (if s % 60 < 10 then "0" ++ toString (s % 60) else toString (s % 60))

/-- Insertion into a `≤`-sorted list of strings. -/
def insertSortedString (a : String) : List String → List String
  | [] => [a]
  | b :: bs => if a ≤ b then a :: b :: bs else b :: insertSortedString a bs

/-- Python's `sorted(set(l))` on strings: duplicates removed, lexicographic
order. -/
def sortedDedup (l : List String) : List String :=
  l.dedup.foldr insertSortedString []

/-- Embedding of `rag_node` after context assembly (`F5_chatnode.py` lines
288-366).  `has_context = bool(transcript_context.strip() or
ocr_context.strip())`; without context the fixed answer is returned with an
empty timestamp list, no LLM call and no history write (lines 291-294).
Otherwise the message list is the opaque system prompt, the loaded history
and the user prompt built from both context blocks and the question; the LLM
answers, the question and the answer are appended to the history
(lines 349-350), and the reference timestamps are the sorted deduplicated
formatted start times of the used documents, capped at ten (lines 353-365). -/
def rag_respond (transcript_context ocr_context : String)
    (transcript_docs ocr_docs : List Doc)
    (history : List (String × String)) (message : String)
    (system_prompt : String) (build_user_prompt : String → String → String)
    (llm : List (String × String) → String) : RagEffects :=
  if pyStrip transcript_context = "" ∧ pyStrip ocr_context = "" then
    { output := { answer := no_context_answer, timestamps := [] }
      llm_calls := 0
      saved_messages := [] }
  else
    let context_parts :=
      (if pyStrip transcript_context ≠ "" then
        ["=== PRIMARY SOURCE: WHAT THE INSTRUCTOR SAID (VERBAL EXPLANATION) ===",
          transcript_context, ""]
      else []) ++
      (if pyStrip ocr_context ≠ "" then
        ["=== SUPPLEMENTARY SOURCE: WHAT'S ON THE SCREEN (VISUAL CONTENT) ===", ocr_context]
      else [])
    let full_context := String.intercalate "\n" context_parts
    let messages :=
      ("system", system_prompt) :: history ++ [("human", build_user_prompt full_context message)]
    let answer := llm messages
    let timestamps :=
      sortedDedup ((transcript_docs ++ ocr_docs).map (fun d => format_timestamp d.start))
    { output := { answer := answer, timestamps := timestamps.take 10 }
      llm_calls := 1
      saved_messages := [("human", message), ("ai", answer)] }

/-! ## Concrete inputs used to instantiate the theorems below -/

/-- A candidate list with eight SPEECH and four VISUAL snippets — abundance
on both sides for `k = 10`. -/
def abundantDocs : List Doc :=
  [⟨"speech", "s1", 0⟩, ⟨"speech", "s2", 5⟩, ⟨"speech", "s3", 10⟩, ⟨"speech", "s4", 15⟩,
    ⟨"visual", "v1", 3⟩, ⟨"speech", "s5", 20⟩, ⟨"speech", "s6", 25⟩, ⟨"visual", "v2", 8⟩,
    ⟨"speech", "s7", 30⟩, ⟨"speech", "s8", 35⟩, ⟨"visual", "v3", 16⟩, ⟨"visual", "v4", 24⟩]

/-- A chat whose history holds nine messages `m1 … m9` of one
`(user_id, chat_id)` pair, in insertion order. -/
def nineMessages : List ChatMessage :=
  [⟨"u", "c", "human", "m1"⟩, ⟨"u", "c", "ai", "m2"⟩, ⟨"u", "c", "human", "m3"⟩,
    ⟨"u", "c", "ai", "m4"⟩, ⟨"u", "c", "human", "m5"⟩, ⟨"u", "c", "ai", "m6"⟩,
    ⟨"u", "c", "human", "m7"⟩, ⟨"u", "c", "ai", "m8"⟩, ⟨"u", "c", "human", "m9"⟩]

/-! ## Theorems -/

/-- Looking the key up right after `save_index` stored it yields the stored
handle. -/
theorem get_index_save_index (db : MetaDB) (u c url d : String) :
    get_index (save_index db u c url d) u c url = some d := by
  simp [get_index, save_index, keyMatches]

/-- C3: for a fixed `(user_id, chat_id, youtube_url)` key, running the
cached-ingestion step twice in sequence yields the same index handle both
times, the build step runs at most once over the two runs, and a cache hit
returns the cached handle with no build at all. -/
theorem ingest_idempotent (db : MetaDB) (user_id chat_id url built1 built2 : String) :
    (ingest_node (ingest_node db user_id chat_id url built1).db user_id chat_id url
          built2).faiss_dir
        = (ingest_node db user_id chat_id url built1).faiss_dir
      ∧ (ingest_node db user_id chat_id url built1).builds
          + (ingest_node (ingest_node db user_id chat_id url built1).db user_id chat_id url
              built2).builds ≤ 1
      ∧ ∀ d, get_index db user_id chat_id url = some d →
          ingest_node db user_id chat_id url built1 = ⟨d, db, 0⟩ := by
  cases h : get_index db user_id chat_id url with
  | some d => simp [ingest_node, h]
  | none => simp [ingest_node, h, get_index_save_index]

/-- C4: the timestamp resolver returns `minutes*60 + seconds` for the first
of the four patterns (`at MM:SS`, `on MM:SS`, `@ MM:SS`, bare `MM:SS`, in
that priority order) that matches anywhere in the query, and `none` when no
pattern matches: the spec's five examples, that no pattern matching gives
`none`, and that an `at MM:SS` match preempts the later patterns. -/
theorem extract_timestamp_spec :
    extract_timestamp "what happens at 2:05" = some 125
      ∧ extract_timestamp "on 3:11" = some 191
      ∧ extract_timestamp "2:01" = some 121
      ∧ extract_timestamp "no time here" = none
      ∧ extract_timestamp "at 1:00 on 2:00" = some 60
      ∧ (∀ message : String,
          re_search matchAtTime message.data = none →
          re_search matchOnTime message.data = none →
          re_search matchAtSignTime message.data = none →
          re_search matchMMSS message.data = none →
          extract_timestamp message = none)
      ∧ (∀ (message : String) (v : ℕ),
          re_search matchAtTime message.data = some v →
          extract_timestamp message = some v) := by
  refine ⟨by decide, by decide, by decide, by decide, by decide, ?_, ?_⟩
  · intro message h1 h2 h3 h4
    simp [extract_timestamp, h1, h2, h3, h4]
  · intro message v h1
    simp [extract_timestamp, h1]

/-- C1: when the candidate list holds at least `⌊k*0.7⌋` SPEECH snippets and
at least `k - ⌊k*0.7⌋` VISUAL snippets, `retrieve_with_priority` returns
exactly the first `⌊k*0.7⌋` SPEECH snippets in similarity order followed by
exactly the first `k - ⌊k*0.7⌋` VISUAL snippets in similarity order (for
`k = 10`: seven then three), with `k` results in total and no re-sorting by
combined score. -/
theorem retrieve_priority_abundance (all_docs : List Doc) (k : ℕ)
    (hs : speech_quota k ≤ (transcriptDocs all_docs).length)
    (hv : k - speech_quota k ≤ (ocrDocs all_docs).length) :
    retrieve_with_priority all_docs k
        = (transcriptDocs all_docs).take (speech_quota k)
          ++ (ocrDocs all_docs).take (k - speech_quota k)
      ∧ ((transcriptDocs all_docs).take (speech_quota k)).length = speech_quota k
      ∧ ((ocrDocs all_docs).take (k - speech_quota k)).length = k - speech_quota k
      ∧ (retrieve_with_priority all_docs k).length = k := by
  have hqk : speech_quota k ≤ k := by
    unfold speech_quota; omega
  have h1 : ¬(((transcriptDocs all_docs).take (speech_quota k)).length < speech_quota k
      ∧ (ocrDocs all_docs).length > k - speech_quota k) := by
    rw [List.length_take]; omega
  have h2 : ¬(((ocrDocs all_docs).take (k - speech_quota k)).length < k - speech_quota k
      ∧ (transcriptDocs all_docs).length > speech_quota k) := by
    rw [List.length_take]; omega
  have hr : retrieve_with_priority all_docs k
      = (transcriptDocs all_docs).take (speech_quota k)
        ++ (ocrDocs all_docs).take (k - speech_quota k) := by
    unfold retrieve_with_priority
    simp only [if_neg h1, if_neg h2]
  refine ⟨hr, ?_, ?_, ?_⟩
  · rw [List.length_take]; omega
  · rw [List.length_take]; omega
  · rw [hr, List.length_append, List.length_take, List.length_take]; omega

/-- C1 at a concrete input: eight SPEECH and four VISUAL candidates, `k = 10`
— seven SPEECH then three VISUAL. -/
theorem retrieve_priority_abundance_witness :
    retrieve_with_priority abundantDocs 10
        = (transcriptDocs abundantDocs).take (speech_quota 10)
          ++ (ocrDocs abundantDocs).take (10 - speech_quota 10)
      ∧ ((transcriptDocs abundantDocs).take (speech_quota 10)).length = speech_quota 10
      ∧ ((ocrDocs abundantDocs).take (10 - speech_quota 10)).length = 10 - speech_quota 10
      ∧ (retrieve_with_priority abundantDocs 10).length = 10 :=
  retrieve_priority_abundance abundantDocs 10 (by decide) (by decide)

/-- The branch structure of `retrieve_with_priority` with its local bindings
substituted, for case analysis. -/
theorem retrieve_with_priority_eq (all_docs : List Doc) (k : ℕ) :
    retrieve_with_priority all_docs k =
      if ((transcriptDocs all_docs).take (speech_quota k)).length < speech_quota k
          ∧ (ocrDocs all_docs).length > k - speech_quota k then
        (transcriptDocs all_docs).take (speech_quota k)
          ++ (ocrDocs all_docs).take ((k - speech_quota k)
              + (speech_quota k - ((transcriptDocs all_docs).take (speech_quota k)).length))
      else if ((ocrDocs all_docs).take (k - speech_quota k)).length < k - speech_quota k
          ∧ (transcriptDocs all_docs).length > speech_quota k then
        (transcriptDocs all_docs).take (speech_quota k
            + ((k - speech_quota k) - ((ocrDocs all_docs).take (k - speech_quota k)).length))
          ++ (ocrDocs all_docs).take (k - speech_quota k)
      else
        (transcriptDocs all_docs).take (speech_quota k)
          ++ (ocrDocs all_docs).take (k - speech_quota k) :=
  rfl

/-- C2: the scarcity behaviour of `retrieve_with_priority`.  With exactly two
SPEECH candidates and at least eight VISUAL candidates at `k = 10`, the
result is those two SPEECH snippets followed by the first eight VISUAL
snippets; in general a SPEECH shortfall below the quota widens the VISUAL
take by the shortfall (bounded by the bucket), and symmetrically for a
VISUAL shortfall; when the candidates total fewer than `k`, every candidate
of either bucket is returned with no padding; and the result never exceeds
`k` entries. -/
theorem retrieve_priority_scarcity (all_docs : List Doc) (k : ℕ) :
    ((transcriptDocs all_docs).length = 2 → 8 ≤ (ocrDocs all_docs).length →
      retrieve_with_priority all_docs 10
        = transcriptDocs all_docs ++ (ocrDocs all_docs).take 8)
      ∧ ((transcriptDocs all_docs).length < speech_quota k →
          k - speech_quota k < (ocrDocs all_docs).length →
          retrieve_with_priority all_docs k
            = transcriptDocs all_docs
              ++ (ocrDocs all_docs).take
                  ((k - speech_quota k) + (speech_quota k - (transcriptDocs all_docs).length)))
      ∧ ((ocrDocs all_docs).length < k - speech_quota k →
          speech_quota k < (transcriptDocs all_docs).length →
          retrieve_with_priority all_docs k
            = (transcriptDocs all_docs).take
                (speech_quota k + ((k - speech_quota k) - (ocrDocs all_docs).length))
              ++ ocrDocs all_docs)
      ∧ ((transcriptDocs all_docs).length + (ocrDocs all_docs).length < k →
          retrieve_with_priority all_docs k = transcriptDocs all_docs ++ ocrDocs all_docs)
      ∧ (retrieve_with_priority all_docs k).length ≤ k := by
  have hqk : speech_quota k ≤ k := by unfold speech_quota; omega
  refine ⟨?_, ?_, ?_, ?_, ?_⟩
  · intro hs hv
    have h7 : speech_quota 10 = 7 := rfl
    rw [retrieve_with_priority_eq, if_pos]
    · have e1 : (transcriptDocs all_docs).take (speech_quota 10) = transcriptDocs all_docs :=
        List.take_of_length_le (by rw [h7]; omega)
      rw [e1, hs, h7]
    · rw [List.length_take, h7]
      omega
  · intro hs hv
    rw [retrieve_with_priority_eq, if_pos]
    · rw [List.take_of_length_le (Nat.le_of_lt hs)]
    · rw [List.length_take]
      omega
  · intro hv hs
    rw [retrieve_with_priority_eq, if_neg, if_pos]
    · rw [List.take_of_length_le (Nat.le_of_lt hv)]
    · rw [List.length_take]
      omega
    · rw [List.length_take]
      omega
  · intro h
    rw [retrieve_with_priority_eq]
    split_ifs with h1 h2
    · simp only [List.length_take] at h1
      rw [List.take_of_length_le
          (by omega : (transcriptDocs all_docs).length ≤ speech_quota k),
        List.take_of_length_le
          (by omega : (ocrDocs all_docs).length
            ≤ k - speech_quota k + (speech_quota k - (transcriptDocs all_docs).length))]
    · simp only [List.length_take] at h1 h2
      rw [List.take_of_length_le
        (by omega : (ocrDocs all_docs).length ≤ k - speech_quota k)]
      rw [List.take_of_length_le
        (by omega : (transcriptDocs all_docs).length
          ≤ speech_quota k + (k - speech_quota k - (ocrDocs all_docs).length))]
    · simp only [List.length_take] at h1 h2
      rw [List.take_of_length_le
          (by omega : (transcriptDocs all_docs).length ≤ speech_quota k),
        List.take_of_length_le
          (by omega : (ocrDocs all_docs).length ≤ k - speech_quota k)]
  · rw [retrieve_with_priority_eq]
    split_ifs with h1 h2 <;>
      simp only [List.length_append, List.length_take] <;> omega

/-- C5 (amended): the timestamp branch includes a transcript segment exactly
when the segment is in the transcript and its start, or its end, falls
inside the closed window `[timestamp - window, timestamp + window]`; a
segment whose interval merely straddles the whole window, with both
endpoints outside it, is excluded.  At the spec's boundary examples with
timestamp 100 and window 45: a segment with start 144 and end 150 is
included, and one with start 146 and any end of at least 146 is excluded. -/
theorem window_inclusion (transcript : List Segment) (timestamp window : ℚ) (s : Segment) :
    (s ∈ relevant_segments transcript timestamp window
        ↔ s ∈ transcript
          ∧ ((timestamp - window ≤ s.start ∧ s.start ≤ timestamp + window)
            ∨ (timestamp - window ≤ s.stop ∧ s.stop ≤ timestamp + window)))
      ∧ segment_in_window 100 45 ⟨"boundary in", 144, 150⟩ = true
      ∧ (∀ e : ℚ, 146 ≤ e → segment_in_window 100 45 ⟨"boundary out", 146, e⟩ = false) := by
  refine ⟨?_, by norm_num [segment_in_window], ?_⟩
  · simp only [relevant_segments, List.mem_filter, segment_in_window, Bool.or_eq_true,
      Bool.and_eq_true, decide_eq_true_eq, ge_iff_le]
  · intro e he
    simp only [segment_in_window, Bool.or_eq_false_iff, Bool.and_eq_false_iff,
      decide_eq_false_iff_not, not_le]
    norm_num
    right
    linarith

/-- C5 witness: the amended inclusion rule applied at timestamp 100,
window 45, on a one-segment transcript — the boundary segment
`start = 144, end = 150` is included, and the excluded example is checked at
the concrete end time 150. -/
theorem window_inclusion_witness :
    ((⟨"boundary in", 144, 150⟩ : Segment)
        ∈ relevant_segments [⟨"boundary in", 144, 150⟩] 100 45
      ↔ (⟨"boundary in", 144, 150⟩ : Segment) ∈ [(⟨"boundary in", 144, 150⟩ : Segment)]
          ∧ (((100 : ℚ) - 45 ≤ 144 ∧ (144 : ℚ) ≤ 100 + 45)
            ∨ ((100 : ℚ) - 45 ≤ 150 ∧ (150 : ℚ) ≤ 100 + 45)))
      ∧ segment_in_window 100 45 ⟨"boundary out", 146, 150⟩ = false :=
  ⟨(window_inclusion [⟨"boundary in", 144, 150⟩] 100 45 ⟨"boundary in", 144, 150⟩).1,
    (window_inclusion [] 100 45 ⟨"boundary in", 144, 150⟩).2.2 150 (by norm_num)⟩

/-- C5 counterexample to the claim as stated: a segment spanning `[0, 1000]`
overlaps the window `[55, 145]` around timestamp 100 (its interval
intersects the window), yet the code's test excludes it, because neither its
start nor its end lies inside the window. -/
theorem window_overlap_counterexample :
    spec_overlaps 100 45 ⟨"straddling", 0, 1000⟩
      ∧ segment_in_window 100 45 ⟨"straddling", 0, 1000⟩ = false
      ∧ relevant_segments [⟨"straddling", 0, 1000⟩] 100 45 = [] := by
  refine ⟨⟨by norm_num, by norm_num⟩, by norm_num [segment_in_window], ?_⟩
  norm_num [relevant_segments, List.filter, segment_in_window]

/-- C6: when both assembled context blocks strip to empty, `rag_node`
short-circuits: the fixed insufficient-information answer is returned with
an empty timestamp list, and the LLM backend is never invoked — the
response does not depend on the LLM function at all. -/
theorem no_context_short_circuit (transcript_context ocr_context : String)
    (transcript_docs ocr_docs : List Doc) (history : List (String × String))
    (message system_prompt : String) (build_user_prompt : String → String → String)
    (llm : List (String × String) → String)
    (h1 : pyStrip transcript_context = "") (h2 : pyStrip ocr_context = "") :
    (rag_respond transcript_context ocr_context transcript_docs ocr_docs history message
          system_prompt build_user_prompt llm).output
        = ⟨no_context_answer, []⟩
      ∧ (rag_respond transcript_context ocr_context transcript_docs ocr_docs history message
          system_prompt build_user_prompt llm).llm_calls = 0
      ∧ ∀ llm2 : List (String × String) → String,
          rag_respond transcript_context ocr_context transcript_docs ocr_docs history message
              system_prompt build_user_prompt llm
            = rag_respond transcript_context ocr_context transcript_docs ocr_docs history message
              system_prompt build_user_prompt llm2 := by
  refine ⟨?_, ?_, ?_⟩ <;> simp [rag_respond, h1, h2]

/-- C6 at a concrete input: empty context blocks, an arbitrary question and
backends. -/
theorem no_context_short_circuit_witness :
    (rag_respond "" "" [] [] [] "what is covered?" "sys"
          (fun c q => c ++ q) (fun _ => "llm answer")).output
        = ⟨no_context_answer, []⟩
      ∧ (rag_respond "" "" [] [] [] "what is covered?" "sys"
          (fun c q => c ++ q) (fun _ => "llm answer")).llm_calls = 0 :=
  ⟨(no_context_short_circuit "" "" [] [] [] "what is covered?" "sys"
      (fun c q => c ++ q) (fun _ => "llm answer") (by decide) (by decide)).1,
    (no_context_short_circuit "" "" [] [] [] "what is covered?" "sys"
      (fun c q => c ++ q) (fun _ => "llm answer") (by decide) (by decide)).2.1⟩

/-- C10: on the no-context terminal path nothing is appended to the
persistent chat history — neither the question nor the fallback answer;
history writes happen only on the LLM-answer path. -/
theorem no_context_preserves_history (transcript_context ocr_context : String)
    (transcript_docs ocr_docs : List Doc) (history : List (String × String))
    (message system_prompt : String) (build_user_prompt : String → String → String)
    (llm : List (String × String) → String)
    (h1 : pyStrip transcript_context = "") (h2 : pyStrip ocr_context = "") :
    (rag_respond transcript_context ocr_context transcript_docs ocr_docs history message
        system_prompt build_user_prompt llm).saved_messages = [] := by
  simp [rag_respond, h1, h2]

/-- C10 at a concrete input: empty context blocks append nothing to the
history. -/
theorem no_context_preserves_history_witness :
    (rag_respond "" "" [] [] [("human", "earlier"), ("ai", "turn")] "next question" "sys"
        (fun c q => c ++ q) (fun _ => "llm answer")).saved_messages = [] :=
  no_context_preserves_history "" "" [] [] [("human", "earlier"), ("ai", "turn")]
    "next question" "sys" (fun c q => c ++ q) (fun _ => "llm answer") (by decide) (by decide)

/-- C8 evaluated: `load_history` with `ORDER BY ts ASC LIMIT 8` on a
nine-message chat returns the eight oldest messages `m1 … m8`, not the eight
most recent `m2 … m9` that the spec's "last N turns" asks for. -/
theorem load_history_returns_oldest :
    load_history nineMessages "u" "c" 8
        = [("human", "m1"), ("ai", "m2"), ("human", "m3"), ("ai", "m4"),
            ("human", "m5"), ("ai", "m6"), ("human", "m7"), ("ai", "m8")]
      ∧ load_history nineMessages "u" "c" 8
          ≠ [("ai", "m2"), ("human", "m3"), ("ai", "m4"), ("human", "m5"),
              ("ai", "m6"), ("human", "m7"), ("ai", "m8"), ("human", "m9")] := by
  decide

set_option maxRecDepth 10000 in
/-- C9 evaluated: with a reported stream rate of 0.125 frames per second the
sampling interval is one frame, and on a stream of 130 frames none of whose
recognised texts passes the noise filter, the loop runs text recognition on
all 130 sampled frames — the budget of 120 is only decremented for kept
frames, so it does not bound the number of recognitions. -/
theorem ocr_budget_counts_kept_frames_only :
    frame_interval (1 / 8) = 1
      ∧ (ingest_visual (List.replicate 130 "") (1 / 8)).2 = 130
      ∧ (ingest_visual (List.replicate 130 "") (1 / 8)).1 = [] := by
  have h : frame_interval (1 / 8) = 1 := by
    unfold frame_interval
    norm_num
  refine ⟨h, ?_, ?_⟩ <;>
    · unfold ingest_visual
      rw [h]
      decide
